import Mathlib

/-!
Verification of the `error_traits` combinator library.

The library extends Rust's two-variant outcome type (`Result<T, E>`,
variants `Ok`/`Err`) and its optional type (`Option<T>`) with small
stateless combinator methods.  We embed the outcome type as an inductive
`Result` with constructors `ok`/`err`, and translate every combinator
from `src/lib.rs` and `src/log_err.rs`.

Caller-supplied closures that are invoked only for their side effects
(`impl Fn(&E)` observers, `impl Fn() -> N` producers, the logging macro)
are modelled by explicit state threading: a closure of Rust type
`Fn(&E)` becomes a state transformer `E → S → S`, a producer
`Fn() -> N` becomes `S → N × S`, and the process-wide logging facility
becomes a `List String` of emitted messages.  "The closure is never
invoked" is then the statement that the state component is returned
unchanged, and "invoked exactly once with argument e" is the statement
that the final state is the transformer applied once to `e`.
-/

namespace ErrorTraits

/-- The two-variant outcome shape: `Ok(T)` or `Err(E)` of Rust's
standard `Result<T, E>` type, which the library extends. -/
inductive Result (T E : Type) : Type where
  | ok : T → Result T E
  | err : E → Result T E
deriving DecidableEq, Repr

/-- Rust std `Result::unwrap_or_else`: returns the success value, or
applies `f` to the failure value. -/
def unwrap_or_else {T E : Type} (r : Result T E) (f : E → T) : T :=
  match r with
  | .ok t => t
  | .err e => f e

/-- `MergeOkErr::merge_ok_err` from `src/lib.rs`:
`self.unwrap_or_else(|err| err)` on a `Result<T, T>`. -/
def merge_ok_err {T : Type} (r : Result T T) : T :=
  unwrap_or_else r (fun e => e)

/-- Rust std `Result::map_err` with a pure closure: applies `f` to the
failure value, passes the success value through. -/
def map_err {T E N : Type} (r : Result T E) (f : E → N) : Result T N :=
  match r with
  | .ok t => .ok t
  | .err e => .err (f e)

/-- Rust std `Result::map_err` with an effectful closure, modelled by
state threading: the closure runs only on the `err` variant, exactly as
in the Rust std implementation. -/
def map_err_st {T E N S : Type} (r : Result T E) (f : E → S → N × S) (s : S) :
    Result T N × S :=
  match r with
  | .ok t => (.ok t, s)
  | .err e => (.err (f e s).1, (f e s).2)

/-- `MapErrBy::map_err_by` from `src/lib.rs`:
`self.map_err(|_| f())` for a zero-argument producer `f`. -/
def map_err_by {T E N : Type} (r : Result T E) (f : Unit → N) : Result T N :=
  map_err r (fun _ => f ())

/-- `MapErrBy::map_err_by` with an effectful producer, modelled by state
threading; mirrors `self.map_err(|_| f())`, where std `map_err` calls
the closure only on the `Err` variant. -/
def map_err_by_st {T E N S : Type} (r : Result T E) (f : S → N × S) (s : S) :
    Result T N × S :=
  match r with
  | .ok t => (.ok t, s)
  | .err _ => (.err (f s).1, (f s).2)

/-- `MapErrToString::map_err_to_str` from `src/lib.rs`:
`self.map_err(|e| e.to_string())`, where `render` models the `ToString`
implementation of the failure type. -/
def map_err_to_str {T E : Type} (render : E → String) (r : Result T E) :
    Result T String :=
  map_err r (fun e => render e)

/-- `WrapInRes::in_ok` from `src/lib.rs`: `Ok(self)`. -/
def in_ok {T ERR : Type} (v : T) : Result T ERR :=
  .ok v

/-- `WrapInRes::in_err` from `src/lib.rs`: `Err(self)`. -/
def in_err {T OK : Type} (v : T) : Result OK T :=
  .err v

/-- `ToEmpty::to_empty` from `src/lib.rs`: discards the value. -/
def to_empty {T : Type} (_v : T) : Unit :=
  ()

/-- `MapType::map_type` from `src/lib.rs`: `f(self)`. -/
def map_type {M N : Type} (v : M) (f : M → N) : N :=
  f v

/-- `PassErrWith::pass_err_with` from `src/lib.rs`:
`if let Err(e) = &self { f(e) } self`.  The observer `impl Fn(&E)` is
modelled as a state transformer `E → S → S`. -/
def pass_err_with {T E S : Type} (r : Result T E) (f : E → S → S) (s : S) :
    Result T E × S :=
  let s2 :=
    match r with
    | .err e => f e s
    | .ok _ => s
  (r, s2)

/-- `LogErr::log_err` from `src/log_err.rs`:
`if let Err(e) = &self \x7b log::error!(...) \x7d self`, where the emitted
message interpolates the caller-supplied string followed by the
`Display` rendering of the failure value.  The `Display` implementation
is modelled by `render`, and the process-wide logging facility by the
list of messages emitted so far, to which `log::error!` appends. -/
def log_err {T E : Type} (render : E → String) (r : Result T E)
    (pre : String) (lg : List String) : Result T E × List String :=
  let lg2 :=
    match r with
    | .err e => lg ++ [pre ++ render e]
    | .ok _ => lg
  (r, lg2)

/-- `ToNoneIf::to_none_if` from `src/lib.rs`:
`match cond(&self) \x7b true => None, _ => Some(self) \x7d`. -/
def to_none_if {T : Type} (v : T) (cond : T → Bool) : Option T :=
  match cond v with
  | true => none
  | _ => some v

/-- `ToNoneIf::to_none_if` with an effectful predicate, modelled by
state threading: `cond(&self)` is evaluated once, then matched. -/
def to_none_if_st {T S : Type} (v : T) (cond : T → S → Bool × S) (s : S) :
    Option T × S :=
  let bs := cond v s
  (match bs.1 with
   | true => none
   | _ => some v, bs.2)

/-- `ToErrIf::to_err_if` from `src/lib.rs`:
`match cond(&self) \x7b true => Err(err), _ => Ok(self) \x7d`.  The failure
payload is an ordinary by-value parameter, not a closure. -/
def to_err_if {V F : Type} (v : V) (cond : V → Bool) (e : F) : Result V F :=
  match cond v with
  | true => .err e
  | _ => .ok v

/-- A call site of `to_err_if` under Rust's call-by-value argument
evaluation: because the failure payload is a plain parameter (not a
closure), its construction expression `fe` (modelled effectfully by
state threading) is evaluated before the call, unconditionally. -/
def to_err_if_call {V F S : Type} (v : V) (cond : V → Bool)
    (fe : S → F × S) (s : S) : Result V F × S :=
  let fs := fe s
  (to_err_if v cond fs.1, fs.2)

/-- Claim C1: `to_err_if v p f` returns `err f` iff `p v` is true and
`ok v` otherwise; and at a call site the failure payload's construction
expression is evaluated exactly once, before the call, regardless of the
predicate's outcome (eager, not deferred, evaluation). -/
theorem to_err_if_spec {V F S : Type} (v : V) (p : V → Bool) (f : F)
    (fe : S → F × S) (s : S) :
    (to_err_if v p f = Result.err f ↔ p v = true)
  ∧ (to_err_if v p f = Result.ok v ↔ p v = false)
  ∧ (to_err_if_call v p fe s).2 = (fe s).2
  ∧ (to_err_if_call v p fe s).1 = to_err_if v p (fe s).1 := by
  refine ⟨?_, ?_, rfl, rfl⟩ <;> cases hp : p v <;> simp [to_err_if, hp]

/-- Claim C1 witness: the spec's concrete scenario, `to_err_if` at 5 and
at 2 with the predicate `n > 3` and payload "too big". -/
theorem to_err_if_spec_witness :
    to_err_if (5 : Nat) (fun n => decide (3 < n)) "too big" = Result.err "too big"
  ∧ to_err_if (2 : Nat) (fun n => decide (3 < n)) "too big" = Result.ok 2 :=
  ⟨(to_err_if_spec 5 (fun n => decide (3 < n)) "too big"
      (fun s : Nat => ("too big", s)) 0).1.mpr (by decide),
   (to_err_if_spec 2 (fun n => decide (3 < n)) "too big"
      (fun s : Nat => ("too big", s)) 0).2.1.mpr (by decide)⟩

/-- Claim C2: `merge_ok_err` on a `Result T T` returns the carried value
from either variant. -/
theorem merge_ok_err_spec {T : Type} (v : T) :
    merge_ok_err (Result.ok v) = v ∧ merge_ok_err (Result.err v) = v :=
  ⟨rfl, rfl⟩

/-- Claim C3: `map_err_by` on a failure discards the original failure
value and returns `err (f ())`; on a success it returns the success
unchanged and the producer is never invoked (the threaded state is
returned untouched, so its side effects do not occur). -/
theorem map_err_by_spec {T E N S : Type} (v : T) (e : E) (f : Unit → N)
    (g : S → N × S) (s : S) :
    map_err_by (Result.err e : Result T E) f = Result.err (f ())
  ∧ map_err_by (Result.ok v : Result T E) f = Result.ok v
  ∧ map_err_by_st (Result.ok v : Result T E) g s = (Result.ok v, s)
  ∧ map_err_by_st (Result.err e : Result T E) g s
      = (Result.err (g s).1, (g s).2) :=
  ⟨rfl, rfl, rfl, rfl⟩

/-- Claim C4: `pass_err_with` and `log_err` return their input outcome
unchanged in both variants; on a failure the observer (resp. the logging
emission) fires exactly once with the original failure value, and on a
success it is never invoked (the threaded state is returned untouched). -/
theorem pass_err_with_log_err_spec {T E S : Type} (v : T) (e : E)
    (f : E → S → S) (s : S) (render : E → String) (pre : String)
    (lg : List String) :
    pass_err_with (Result.ok v : Result T E) f s = (Result.ok v, s)
  ∧ pass_err_with (Result.err e : Result T E) f s = (Result.err e, f e s)
  ∧ log_err render (Result.ok v : Result T E) pre lg = (Result.ok v, lg)
  ∧ log_err render (Result.err e : Result T E) pre lg
      = (Result.err e, lg ++ [pre ++ render e]) :=
  ⟨rfl, rfl, rfl, rfl⟩

/-- Claim C5: `map_err_to_str` replaces a failure value by its textual
rendering and leaves a success value unchanged. -/
theorem map_err_to_str_spec {T E : Type} (render : E → String) (v : T) (e : E) :
    map_err_to_str render (Result.err e : Result T E) = Result.err (render e)
  ∧ map_err_to_str render (Result.ok v : Result T E) = Result.ok v :=
  ⟨rfl, rfl⟩

/-- Claim C6: `to_none_if v p` is `none` iff `p v` is true and `some v`
otherwise; with an effectful predicate, the predicate is invoked exactly
once per call (the final state is one application of the predicate's
state transformer at `v`). -/
theorem to_none_if_spec {T S : Type} (v : T) (p : T → Bool)
    (q : T → S → Bool × S) (s : S) :
    (to_none_if v p = none ↔ p v = true)
  ∧ (to_none_if v p = some v ↔ p v = false)
  ∧ to_none_if_st v q s = (to_none_if v (fun x => (q x s).1), (q v s).2) := by
  refine ⟨?_, ?_, rfl⟩ <;> cases hp : p v <;> simp [to_none_if, hp]

/-- Claim C6 witness: `to_none_if` at 5 and at 2 with the predicate
`n > 3`, the effectful variant threading a call counter. -/
theorem to_none_if_spec_witness :
    to_none_if (5 : Nat) (fun n => decide (3 < n)) = none
  ∧ to_none_if (2 : Nat) (fun n => decide (3 < n)) = some 2 :=
  ⟨(to_none_if_spec 5 (fun n => decide (3 < n))
      (fun n (k : Nat) => (decide (3 < n), k + 1)) 0).1.mpr (by decide),
   (to_none_if_spec 2 (fun n => decide (3 < n))
      (fun n (k : Nat) => (decide (3 < n), k + 1)) 0).2.1.mpr (by decide)⟩

/-- Claim C7: success-side round trip: wrapping a value with `in_ok` and
collapsing with `merge_ok_err` returns the value. -/
theorem in_ok_merge_round_trip {T : Type} (v : T) :
    merge_ok_err (in_ok v : Result T T) = v :=
  rfl

/-- Claim C8: on a failure, `log_err` forwards to the logging facility
exactly the concatenation of the caller-supplied string followed by the
rendered failure value, with nothing inserted between or around them. -/
theorem log_err_message_exact {T E : Type} (render : E → String) (e : E)
    (pre : String) (lg : List String) :
    (log_err render (Result.err e : Result T E) pre lg).2
      = lg ++ [pre ++ render e] :=
  rfl

/-- Claim C9: every combinator of the library is total over its input's
variant space: for each variant of each outcome or optional input (and
each plain value for the value-level operations) a well-defined output
is produced, assuming the caller-supplied closures are themselves total. -/
theorem combinators_total {T E N M W S : Type} (v : T) (w : W) (e : E)
    (m : M) (fn : Unit → N) (fmn : M → N) (obs : E → S → S) (s : S)
    (render : E → String) (pre : String) (lg : List String)
    (p : T → Bool) (fe : E) :
    merge_ok_err (Result.ok w : Result W W) = w
  ∧ merge_ok_err (Result.err w : Result W W) = w
  ∧ map_err_by (Result.ok v : Result T E) fn = Result.ok v
  ∧ map_err_by (Result.err e : Result T E) fn = Result.err (fn ())
  ∧ map_err_to_str render (Result.ok v : Result T E) = Result.ok v
  ∧ map_err_to_str render (Result.err e : Result T E) = Result.err (render e)
  ∧ (in_ok v : Result T E) = Result.ok v
  ∧ (in_err e : Result T E) = Result.err e
  ∧ to_empty v = ()
  ∧ map_type m fmn = fmn m
  ∧ pass_err_with (Result.ok v : Result T E) obs s = (Result.ok v, s)
  ∧ pass_err_with (Result.err e : Result T E) obs s = (Result.err e, obs e s)
  ∧ (to_none_if v p = none ∨ to_none_if v p = some v)
  ∧ (to_err_if v p fe = Result.err fe ∨ to_err_if v p fe = Result.ok v)
  ∧ log_err render (Result.ok v : Result T E) pre lg = (Result.ok v, lg)
  ∧ log_err render (Result.err e : Result T E) pre lg
      = (Result.err e, lg ++ [pre ++ render e]) := by
  refine ⟨rfl, rfl, rfl, rfl, rfl, rfl, rfl, rfl, rfl, rfl, rfl, rfl,
    ?_, ?_, rfl, rfl⟩
  · cases hp : p v <;> simp [to_none_if, hp]
  · cases hp : p v <;> simp [to_err_if, hp]

/-- Claim C10: failure-side round trip: wrapping a value with `in_err`
and collapsing with `merge_ok_err` returns the value. -/
theorem in_err_merge_round_trip {T : Type} (v : T) :
    merge_ok_err (in_err v : Result T T) = v :=
  rfl

end ErrorTraits
